import Mathlib

/-!
Shallow embedding of the DNS record flipper (`flipper.py`): the config
parser (`parse_flip_config`), the record locator (`search_records`), the
flip executor (`flip_record`) and the `flip_app` orchestration branch of
`main`, together with theorems about their behaviour.

Python runtime errors (uncaught exceptions) are modelled by `PyError`;
functions that can raise return `Except PyError _` or `Option _` where the
Python code catches the exception and returns `None`.
-/

set_option autoImplicit false

namespace Flipper

/-- Uncaught Python exceptions that the embedded code can raise. -/
inductive PyError where
  /-- ValueError from tuple-unpacking a split of the wrong length. -/
  | valueError
  /-- TypeError from iterating over None. -/
  | typeError
  /-- KeyError from a missing dict key. -/
  | keyError
  /-- Exception raised by the NS1 provider during loadRecord or update. -/
  | flipError
  deriving DecidableEq, Repr

deriving instance DecidableEq for Except

/-- One in-progress or sealed record of the flip configuration: the Python
dict `current_record`.  The key `fqdn` holds a `(fqdn, record_type)` tuple
and is kept apart; every other key maps to a string value. -/
structure FlipRecordD where
  fqdn : Option (String × String)
  fields : List (String × String)
  deriving DecidableEq, Repr

/-- Dict assignment `d[k] = v`: overwrite in place, else append (Python
dicts keep insertion order). -/
def setField : List (String × String) → String → String → List (String × String)
  | [], k, v => [(k, v)]
  | (k0, v0) :: rest, k, v =>
      if k0 = k then (k0, v) :: rest else (k0, v0) :: setField rest k v

/-- Dict membership `k in d` for the string-valued fields. -/
def hasField (fields : List (String × String)) (k : String) : Bool :=
  fields.any (fun e => e.1 == k)

/-- Dict lookup `d[k]` for the string-valued fields; `none` is a KeyError. -/
def getField (fields : List (String × String)) (k : String) : Option String :=
  (fields.find? (fun e => e.1 == k)).map (·.2)

/-- The parsed configuration: `defaultdict(list)` keyed by the current
application name, which is `none` before any `[name]` line has been seen.
Entries keep first-insertion order, as Python dicts do. -/
abbrev Model := List (Option String × List FlipRecordD)

/-- Lookup of a key in the model, `none` when absent. -/
def modelFind (m : Model) (k : Option String) : Option (List FlipRecordD) :=
  (m.find? (fun e => e.1 = k)).map (·.2)

/-- Membership test `k in d` on the model; does not mutate. -/
def modelContains (m : Model) (k : Option String) : Bool :=
  (modelFind m k).isSome

/-- The method `d.get(k, default)`; does not mutate. -/
def modelGet (m : Model) (k : Option String) (default : List FlipRecordD) :
    List FlipRecordD :=
  (modelFind m k).getD default

/-- Subscript access `d[k]` on a `defaultdict(list)`: on a missing key it
inserts an empty list for `k` and returns it, so it returns the possibly
grown dict alongside the value. -/
def dictGetItem (m : Model) (k : Option String) : List FlipRecordD × Model :=
  match modelFind m k with
  | some rs => (rs, m)
  | none => ([], m ++ [(k, [])])

/-- The statement `flip_config[current_application].append(current_record)`
on a `defaultdict(list)`: append to the existing list, or create the key
with a one-element list at the end of the dict. -/
def modelAppend (m : Model) (k : Option String) (r : FlipRecordD) : Model :=
  match m with
  | [] => [(k, [r])]
  | (k0, rs) :: rest =>
      if k0 = k then (k0, rs ++ [r]) :: rest else (k0, rs) :: modelAppend rest k r

/-- Python `str.strip()`: drop whitespace from both ends. -/
def pyStrip (s : String) : String :=
  ⟨((s.data.dropWhile Char.isWhitespace).reverse.dropWhile Char.isWhitespace).reverse⟩

/-- Python `str.startswith(pre)`. -/
def pyStartsWith (s pre : String) : Bool :=
  pre.data.isPrefixOf s.data

/-- Python `str.endswith(suf)`. -/
def pyEndsWith (s suf : String) : Bool :=
  suf.data.isSuffixOf s.data

/-- Python slicing `s[n:]` (by code points). -/
def pyDrop (s : String) (n : Nat) : String :=
  ⟨s.data.drop n⟩

/-- Python slicing `s[1:-1]`, as used on a `[name]` line. -/
def pyDropEnds (s : String) : String :=
  ⟨((s.data.drop 1).reverse.drop 1).reverse⟩

/-- Scanner for Python `str.split(sep)` with the two-character separator
`": "`: greedy left-to-right, non-overlapping, keeping empty pieces. -/
def splitColonSpace : List Char → List Char → List (List Char)
  | [], acc => [acc.reverse]
  | [c], acc => [(acc.reverse ++ [c])]
  | c1 :: c2 :: rest, acc =>
      if c1 = ':' ∧ c2 = ' ' then acc.reverse :: splitColonSpace rest []
      else splitColonSpace (c2 :: rest) (c1 :: acc)

/-- Python `line.split(": ")`. -/
def pySplitColonSpace (s : String) : List String :=
  (splitColonSpace s.data []).map fun l => ⟨l⟩

/-- Scanner for Python `str.split(",")`, keeping empty pieces. -/
def splitComma : List Char → List Char → List (List Char)
  | [], acc => [acc.reverse]
  | c :: rest, acc =>
      if c = ',' then acc.reverse :: splitComma rest []
      else splitComma rest (c :: acc)

/-- Python `value.split(",")`. -/
def pySplitComma (s : String) : List String :=
  (splitComma s.data []).map fun l => ⟨l⟩

/-- Scanner for Python `str.split()` with no argument: split on whitespace
runs, discarding empty pieces. -/
def splitWsAux : List Char → List Char → List (List Char)
  | [], acc => if acc.isEmpty then [] else [acc.reverse]
  | c :: rest, acc =>
      if c.isWhitespace then
        if acc.isEmpty then splitWsAux rest [] else acc.reverse :: splitWsAux rest []
      else splitWsAux rest (c :: acc)

/-- Python `str.split()` with no argument. -/
def pySplitWs (s : String) : List String :=
  (splitWsAux s.data []).map fun l => ⟨l⟩

/-- Mutable state of the `parse_flip_config` loop. -/
structure PState where
  flip_config : Model
  current_application : Option String
  current_record : FlipRecordD
  deriving DecidableEq, Repr

/-- State at the top of `parse_flip_config`. -/
def initPState : PState :=
  { flip_config := [], current_application := none,
    current_record := { fqdn := none, fields := [] } }

/-- One iteration of the `for line in file` loop of `parse_flip_config`. -/
def parseLine (st : PState) (line0 : String) : Except PyError PState :=
  let line := pyStrip line0
  if line = "" ∨ pyStartsWith line "#" then .ok st
  else if pyStartsWith line "[" ∧ pyEndsWith line "]" then
    .ok { st with current_application := some (pyDropEnds line) }
  else if pyStartsWith line "fqdn:" then
    match pySplitWs (pyDrop line 5) with
    | [f, record_type] =>
        .ok { st with current_record := { st.current_record with fqdn := some (f, record_type) } }
    | _ => .error .valueError
  else
    match pySplitColonSpace line with
    | [key, value] =>
        let rec1 : FlipRecordD :=
          { st.current_record with fields := setField st.current_record.fields key value }
        if hasField rec1.fields "secondary" then
          .ok { flip_config := modelAppend st.flip_config st.current_application rec1,
                current_application := st.current_application,
                current_record := { fqdn := none, fields := [] } }
        else
          .ok { st with current_record := rec1 }
    | _ => .error .valueError

/-- The whole `for line in file` loop. -/
def parseLines : PState → List String → Except PyError PState
  | st, [] => .ok st
  | st, l :: ls =>
      match parseLine st l with
      | .error e => .error e
      | .ok st2 => parseLines st2 ls

/-- The function `parse_flip_config`, over the list of lines of the file. -/
def parse_flip_config (lines : List String) : Except PyError Model :=
  (parseLines initPState lines).map (·.flip_config)

/-- One entry of the provider response of `api.searchZone(fqdn)`: the keys
`domain`, `zone`, `type` and `answers` that `search_records` reads; each
element of `answers` is the list under its `answer` key. -/
structure RawResult where
  domain : String
  zone : String
  type : String
  answers : List (List String)
  deriving DecidableEq, Repr

/-- One tuple `(domain, zone, record_type, record_values)` appended to
`records` by `search_records`. -/
structure Resolved where
  domain : String
  zone : String
  record_type : String
  record_values : List String
  deriving DecidableEq, Repr

/-- The result-processing loop of `search_records`: keep `A`/`CNAME`
results whose domain equals the fqdn or ends with `"." + fqdn`, extracting
`answer['answer'][0]` of each answer.  An empty `answer` list raises
IndexError, which the surrounding `except` turns into `None` for the whole
call, hence the `Option`. -/
def collectRecords (fqdn : String) : List RawResult → Option (List Resolved)
  | [] => some []
  | result :: rest =>
      if result.type = "A" ∨ result.type = "CNAME" then
        if result.domain = fqdn ∨ pyEndsWith result.domain ("." ++ fqdn) then
          match result.answers.mapM List.head? with
          | none => none
          | some record_values =>
              (collectRecords fqdn rest).map
                fun rs => ⟨result.domain, result.zone, result.type, record_values⟩ :: rs
        else collectRecords fqdn rest
      else collectRecords fqdn rest

/-- A record handle as loaded from the provider: only its answer set is
observable here. -/
structure DNSRecordH where
  answers : List (List String)
  deriving DecidableEq, Repr

/-- The external NS1 provider: `searchZone` returns `none` when the call
raises; `loadRecord` may raise; `updateRejects` says whether the provider
rejects an `update` of a loaded record with a given answer set. -/
structure Env where
  searchZone : String → Option (List RawResult)
  loadRecord : String → String → String → Except PyError DNSRecordH
  updateRejects : DNSRecordH → List (List String) → Bool

/-- The function `search_records`: `none` models the `return None` taken
when the provider call (or answer extraction) raises. -/
def search_records (env : Env) (fqdn : String) : Option (List Resolved) :=
  match env.searchZone fqdn with
  | none => none
  | some results => collectRecords fqdn results

/-- The list comprehension `[r for r in records if r[0] == fqdn]` used by
the check action, the list-detail branch and the flip_app branch alike. -/
def exactMatches (records : List Resolved) (fqdn : String) : List Resolved :=
  records.filter fun r => r.domain == fqdn

/-- The provider call `record.update(answers=new_answers)`: a full replace
of the answer set, discarding whatever was there. -/
def recordUpdate (record : DNSRecordH) (new_answers : List (List String)) : DNSRecordH :=
  { record with answers := new_answers }

/-- The function `flip_record` with its default `action="replace"` (the
only action the script ever uses): load the record, build one answer entry
per new value, and replace the answer set.  A load or update failure is the
provider exception propagating out. -/
def flip_record (env : Env) (fqdn zone record_type : String) (new_values : List String) :
    Except PyError DNSRecordH :=
  match env.loadRecord fqdn record_type zone with
  | .error e => .error e
  | .ok record =>
      let new_answers := new_values.map fun value => [value]
      if env.updateRejects record new_answers then .error .flipError
      else .ok (recordUpdate record new_answers)

/-- Result of the flip_app branch of `main`: the application was not in
the config, or an uncaught exception killed the process before the summary
was printed, or the loop finished and printed `flips_summary`. -/
inductive BatchResult where
  | notFound
  | crashed (e : PyError)
  | done (flips_summary : List String)
  deriving DecidableEq, Repr

/-- One invocation of `flip_record` made by the flip_app loop, with the
arguments it received. -/
structure FlipCall where
  fqdn : String
  zone : String
  record_type : String
  new_values : List String
  deriving DecidableEq, Repr

/-- The summary line appended when no matching records were found. -/
def warnLine (fqdn : String) : String :=
  fqdn ++ ": WARNING - No matching records found. Skipping flip."

/-- The summary line appended after a successful flip. -/
def appliedLine (fqdn record_type new_value : String) : String :=
  fqdn ++ " " ++ record_type ++ " -> " ++ new_value

/-- The `for record in flip_config[app_name]` loop of the flip_app branch,
accumulating `flips_summary` and the trace of `flip_record` invocations.
`record['fqdn']` or `record[site]` missing raises KeyError; a `None` from
`search_records` raises TypeError at the list comprehension; an exception
from `flip_record` propagates.  All three kill the loop with no summary. -/
def flipLoop (env : Env) (site : String) :
    List FlipRecordD → List String → List FlipCall → BatchResult × List FlipCall
  | [], flips_summary, calls => (.done flips_summary, calls)
  | record :: rest, flips_summary, calls =>
      match record.fqdn with
      | none => (.crashed .keyError, calls)
      | some (fqdn, record_type) =>
          match getField record.fields site with
          | none => (.crashed .keyError, calls)
          | some new_value =>
              match search_records env fqdn with
              | none => (.crashed .typeError, calls)
              | some search_results =>
                  match exactMatches search_results fqdn with
                  | [] => flipLoop env site rest (flips_summary ++ [warnLine fqdn]) calls
                  | m :: _ =>
                      let calls2na := calls ++ [⟨fqdn, m.zone, record_type, pySplitComma new_value⟩]
                      match flip_record env fqdn m.zone record_type (pySplitComma new_value) with
                      | .error e => (.crashed e, calls2na)
                      | .ok _ =>
                          flipLoop env site rest
                            (flips_summary ++ [appliedLine fqdn record_type new_value]) calls2na

/-- The flip_app branch of `main` (without `-list`): guarded by
`app_name in flip_config`, then iterates `flip_config[app_name]` (a
defaultdict subscript, hence `dictGetItem`).  Returns the batch result,
the trace of flip executor invocations, and the model as it stands
afterwards. -/
def flipApp (env : Env) (flip_config : Model) (app_name site : String) :
    BatchResult × List FlipCall × Model :=
  if modelContains flip_config (some app_name) then
    let (records, m2) := dictGetItem flip_config (some app_name)
    let (res, calls) := flipLoop env site records [] []
    (res, calls, m2)
  else (.notFound, [], flip_config)

/-- The check action of `main`: the records it reports are exactly the
equality-filtered search results; iterating a `None` search result raises
TypeError. -/
def check_action (env : Env) (fqdn : String) : Except PyError (List Resolved) :=
  match search_records env fqdn with
  | none => .error .typeError
  | some records => .ok (exactMatches records fqdn)

/-- Output lines of the `-list -app` detail branch, structurally: the
declared values of a record, a failed-search message, a no-records message,
or one live matching record. -/
inductive DetailLine where
  | declared (fqdn primary secondary : String)
  | searchErrorLine (fqdn : String)
  | noRecordsLine (fqdn : String) (record_type : String)
  | liveLine (r : Resolved)
  deriving DecidableEq, Repr

/-- The record loop of the `-list -app` branch: reads `record['fqdn']`,
`record['primary']`, `record['secondary']` (KeyError when missing), does a
live search per fqdn, reports a search error or the equality-filtered
matches, and continues. -/
def listDetailLoop (env : Env) : List FlipRecordD → Except PyError (List DetailLine)
  | [] => .ok []
  | record :: rest =>
      match record.fqdn with
      | none => .error .keyError
      | some (fqdn, record_type) =>
          match getField record.fields "primary", getField record.fields "secondary" with
          | some p, some s =>
              let head := DetailLine.declared fqdn p s
              match search_records env fqdn with
              | none =>
                  (listDetailLoop env rest).map
                    fun ls => head :: DetailLine.searchErrorLine fqdn :: ls
              | some records =>
                  let matching := exactMatches records fqdn
                  if matching.isEmpty then
                    (listDetailLoop env rest).map
                      fun ls => head :: DetailLine.noRecordsLine fqdn record_type :: ls
                  else
                    (listDetailLoop env rest).map
                      fun ls => head :: (matching.map DetailLine.liveLine ++ ls)
          | _, _ => .error .keyError

/-- The `-list -app <name>` branch of `main`: reads the application via
`flip_config.get(app_name, [])` and never writes to the model, which is
returned alongside the output. -/
def listApplicationDetail (env : Env) (flip_config : Model) (app_name : String) :
    Except PyError (List DetailLine) × Model :=
  let app_config := modelGet flip_config (some app_name) []
  (listDetailLoop env app_config, flip_config)

/-! Claim C1: the spec says a line matching no recognized pattern, such as
`foo: bar` inside a record block, makes the parse fail with
ConfigFormatError.  The code has no such error: a line of shape
`key: value` with an unrecognized key is silently stored into the
in-progress record, and only a line that does not even split into exactly
two pieces on `": "` raises (a ValueError). -/

/-- C1 counterexample: a file whose record block contains `foo: bar`
parses without any error, and the sealed record carries the stored
`("foo", "bar")` field. -/
theorem C1_counterexample :
    parse_flip_config ["[app]", "fqdn: a.com A", "primary: p", "foo: bar", "secondary: s"] =
      .ok [(some "app", [{ fqdn := some ("a.com", "A"),
                           fields := [("primary", "p"), ("foo", "bar"), ("secondary", "s")] }])] := by
  decide

/-- C1 amended: a nonblank, non-comment line that is not a `[...]` header
and not an `fqdn:` line, and that splits on `": "` into exactly a key and
a value, is accepted and silently stored into the in-progress record under
that key (here stated for lines that do not complete a record). -/
theorem C1_amended_thm (st : PState) (line k v : String)
    (htrim : pyStrip line = line)
    (hne : line ≠ "")
    (hcomment : pyStartsWith line "#" = false)
    (hheader : pyEndsWith line "]" = false)
    (hfqdn : pyStartsWith line "fqdn:" = false)
    (hsplit : pySplitColonSpace line = [k, v])
    (hsec : hasField (setField st.current_record.fields k v) "secondary" = false) :
    parseLine st line =
      .ok { st with current_record :=
              { st.current_record with fields := setField st.current_record.fields k v } } := by
  unfold parseLine
  simp [htrim, hne, hcomment, hheader, hfqdn, hsplit, hsec]

/-- C1 witness: the amended theorem applied to the line `foo: bar` in the
initial parser state. -/
theorem C1_witness :
    parseLine initPState "foo: bar" =
      .ok { initPState with current_record := { fqdn := none, fields := [("foo", "bar")] } } :=
  C1_amended_thm initPState "foo: bar" "foo" "bar" (by decide) (by decide) (by decide)
    (by decide) (by decide) (by decide) (by decide)

/-! Claim C4: the spec says a FlipRecord is admitted only when all four
fields are set.  The code seals and appends the record the instant the
`secondary` key is present, regardless of `fqdn` and `primary`. -/

/-- C4 counterexample: a block consisting of a lone `secondary:` line is
admitted into the model with no fqdn and no primary value. -/
theorem C4_counterexample :
    parse_flip_config ["[app]", "secondary: s"] =
      .ok [(some "app", [{ fqdn := none, fields := [("secondary", "s")] }])] := by
  decide

/-- C4 amended: whenever a generic `key: value` line leaves the field
`secondary` present, the in-progress record is sealed and appended to the
current application as it stands — whether or not `fqdn` or `primary` were
ever set. -/
theorem C4_amended_thm (st : PState) (line k v : String)
    (htrim : pyStrip line = line)
    (hne : line ≠ "")
    (hcomment : pyStartsWith line "#" = false)
    (hheader : pyEndsWith line "]" = false)
    (hfqdn : pyStartsWith line "fqdn:" = false)
    (hsplit : pySplitColonSpace line = [k, v])
    (hsec : hasField (setField st.current_record.fields k v) "secondary" = true) :
    parseLine st line =
      .ok { flip_config := modelAppend st.flip_config st.current_application
              { st.current_record with fields := setField st.current_record.fields k v },
            current_application := st.current_application,
            current_record := { fqdn := none, fields := [] } } := by
  unfold parseLine
  simp [htrim, hne, hcomment, hheader, hfqdn, hsplit, hsec]

/-- C4 witness: the amended theorem applied to a lone `secondary: s` line
in the initial state, sealing a record with undefined fqdn and primary. -/
theorem C4_witness :
    parseLine initPState "secondary: s" =
      .ok { flip_config := [(none, [{ fqdn := none, fields := [("secondary", "s")] }])],
            current_application := none,
            current_record := { fqdn := none, fields := [] } } :=
  C4_amended_thm initPState "secondary: s" "secondary" "s" (by decide) (by decide) (by decide)
    (by decide) (by decide) (by decide) (by decide)

/-! Claim C5: the spec says a record line before any `[name]` line must
fail with ConfigFormatError.  The code raises nothing: the record
accumulates under `current_application = None` and, when sealed, is
appended to the model under the key `None`. -/

/-- C5 counterexample: a complete record block before any `[name]` line
parses without error and is attached to the nonexistent application
`None`. -/
theorem C5_counterexample :
    parse_flip_config ["fqdn: a.com A", "primary: 1.1.1.1", "secondary: 2.2.2.2"] =
      .ok [(none, [{ fqdn := some ("a.com", "A"),
                     fields := [("primary", "1.1.1.1"), ("secondary", "2.2.2.2")] }])] := by
  decide

/-- C5 amended: any well-formed record block (`fqdn:`, `primary:`,
`secondary:` lines) occurring before any `[name]` line yields, without
error, a model whose single entry is keyed by `none` and holds that
record. -/
theorem C5_amended_thm (l1 l2 l3 f t p s : String)
    (h1t : pyStrip l1 = l1) (h1ne : l1 ≠ "") (h1c : pyStartsWith l1 "#" = false)
    (h1h : pyEndsWith l1 "]" = false) (h1f : pyStartsWith l1 "fqdn:" = true)
    (h1s : pySplitWs (pyDrop l1 5) = [f, t])
    (h2t : pyStrip l2 = l2) (h2ne : l2 ≠ "") (h2c : pyStartsWith l2 "#" = false)
    (h2h : pyEndsWith l2 "]" = false) (h2f : pyStartsWith l2 "fqdn:" = false)
    (h2s : pySplitColonSpace l2 = ["primary", p])
    (h3t : pyStrip l3 = l3) (h3ne : l3 ≠ "") (h3c : pyStartsWith l3 "#" = false)
    (h3h : pyEndsWith l3 "]" = false) (h3f : pyStartsWith l3 "fqdn:" = false)
    (h3s : pySplitColonSpace l3 = ["secondary", s]) :
    parse_flip_config [l1, l2, l3] =
      .ok [(none, [{ fqdn := some (f, t), fields := [("primary", p), ("secondary", s)] }])] := by
  simp [parse_flip_config, Except.map, parseLines, parseLine, initPState, h1t, h1ne, h1c, h1h,
        h1f, h1s, h2t, h2ne, h2c, h2h, h2f, h2s,
        h3t, h3ne, h3c, h3h, h3f, h3s, hasField, setField, modelAppend]

/-- C5 witness: the amended theorem applied to a concrete headerless
block. -/
theorem C5_witness :
    parse_flip_config ["fqdn: b.net CNAME", "primary: x.net", "secondary: y.net"] =
      .ok [(none, [{ fqdn := some ("b.net", "CNAME"),
                     fields := [("primary", "x.net"), ("secondary", "y.net")] }])] :=
  C5_amended_thm "fqdn: b.net CNAME" "primary: x.net" "secondary: y.net"
    "b.net" "CNAME" "x.net" "y.net"
    (by decide) (by decide) (by decide) (by decide) (by decide) (by decide)
    (by decide) (by decide) (by decide) (by decide) (by decide) (by decide)
    (by decide) (by decide) (by decide) (by decide) (by decide) (by decide)

/-! Claim C8: reopening the same `[app]` header appends to the existing
record list rather than replacing it, thanks to the
`defaultdict(list)` append in `parse_flip_config`. -/

/-- C8: a file that opens `[a]`, declares one record block, reopens the
same application and declares another block parses to a single entry for
`a` holding both records in file order. -/
theorem C8_theorem (hd1 hd2 a : String)
    (l11 l12 l13 l21 l22 l23 f1 t1 p1 s1 f2 t2 p2 s2 : String)
    (hA1t : pyStrip hd1 = hd1) (hA1ne : hd1 ≠ "") (hA1c : pyStartsWith hd1 "#" = false)
    (hA1o : pyStartsWith hd1 "[" = true) (hA1e : pyEndsWith hd1 "]" = true)
    (hA1n : pyDropEnds hd1 = a)
    (hA2t : pyStrip hd2 = hd2) (hA2ne : hd2 ≠ "") (hA2c : pyStartsWith hd2 "#" = false)
    (hA2o : pyStartsWith hd2 "[" = true) (hA2e : pyEndsWith hd2 "]" = true)
    (hA2n : pyDropEnds hd2 = a)
    (h11t : pyStrip l11 = l11) (h11ne : l11 ≠ "") (h11c : pyStartsWith l11 "#" = false)
    (h11h : pyEndsWith l11 "]" = false) (h11f : pyStartsWith l11 "fqdn:" = true)
    (h11s : pySplitWs (pyDrop l11 5) = [f1, t1])
    (h12t : pyStrip l12 = l12) (h12ne : l12 ≠ "") (h12c : pyStartsWith l12 "#" = false)
    (h12h : pyEndsWith l12 "]" = false) (h12f : pyStartsWith l12 "fqdn:" = false)
    (h12s : pySplitColonSpace l12 = ["primary", p1])
    (h13t : pyStrip l13 = l13) (h13ne : l13 ≠ "") (h13c : pyStartsWith l13 "#" = false)
    (h13h : pyEndsWith l13 "]" = false) (h13f : pyStartsWith l13 "fqdn:" = false)
    (h13s : pySplitColonSpace l13 = ["secondary", s1])
    (h21t : pyStrip l21 = l21) (h21ne : l21 ≠ "") (h21c : pyStartsWith l21 "#" = false)
    (h21h : pyEndsWith l21 "]" = false) (h21f : pyStartsWith l21 "fqdn:" = true)
    (h21s : pySplitWs (pyDrop l21 5) = [f2, t2])
    (h22t : pyStrip l22 = l22) (h22ne : l22 ≠ "") (h22c : pyStartsWith l22 "#" = false)
    (h22h : pyEndsWith l22 "]" = false) (h22f : pyStartsWith l22 "fqdn:" = false)
    (h22s : pySplitColonSpace l22 = ["primary", p2])
    (h23t : pyStrip l23 = l23) (h23ne : l23 ≠ "") (h23c : pyStartsWith l23 "#" = false)
    (h23h : pyEndsWith l23 "]" = false) (h23f : pyStartsWith l23 "fqdn:" = false)
    (h23s : pySplitColonSpace l23 = ["secondary", s2]) :
    parse_flip_config [hd1, l11, l12, l13, hd2, l21, l22, l23] =
      .ok [(some a,
            [{ fqdn := some (f1, t1), fields := [("primary", p1), ("secondary", s1)] },
             { fqdn := some (f2, t2), fields := [("primary", p2), ("secondary", s2)] }])] := by
  simp [parse_flip_config, Except.map, parseLines, parseLine, initPState,
        hA1t, hA1ne, hA1c, hA1o, hA1e, hA1n, hA2t, hA2ne, hA2c, hA2o, hA2e, hA2n,
        h11t, h11ne, h11c, h11h, h11f, h11s, h12t, h12ne, h12c, h12h, h12f, h12s,
        h13t, h13ne, h13c, h13h, h13f, h13s, h21t, h21ne, h21c, h21h, h21f, h21s,
        h22t, h22ne, h22c, h22h, h22f, h22s, h23t, h23ne, h23c, h23h, h23f, h23s,
        hasField, setField, modelAppend]

/-- C8 witness: the theorem applied to a concrete file reopening `[app]`. -/
theorem C8_witness :
    parse_flip_config ["[app]", "fqdn: a.com A", "primary: 1.1.1.1", "secondary: 2.2.2.2",
                       "[app]", "fqdn: b.com CNAME", "primary: p.b.com", "secondary: s.b.com"] =
      .ok [(some "app",
            [{ fqdn := some ("a.com", "A"),
               fields := [("primary", "1.1.1.1"), ("secondary", "2.2.2.2")] },
             { fqdn := some ("b.com", "CNAME"),
               fields := [("primary", "p.b.com"), ("secondary", "s.b.com")] }])] :=
  C8_theorem "[app]" "[app]" "app" "fqdn: a.com A" "primary: 1.1.1.1" "secondary: 2.2.2.2"
    "fqdn: b.com CNAME" "primary: p.b.com" "secondary: s.b.com"
    "a.com" "A" "1.1.1.1" "2.2.2.2" "b.com" "CNAME" "p.b.com" "s.b.com"
    (by decide) (by decide) (by decide) (by decide) (by decide) (by decide)
    (by decide) (by decide) (by decide) (by decide) (by decide) (by decide)
    (by decide) (by decide) (by decide) (by decide) (by decide) (by decide)
    (by decide) (by decide) (by decide) (by decide) (by decide) (by decide)
    (by decide) (by decide) (by decide) (by decide) (by decide) (by decide)
    (by decide) (by decide) (by decide) (by decide) (by decide) (by decide)
    (by decide) (by decide) (by decide) (by decide) (by decide) (by decide)
    (by decide) (by decide) (by decide) (by decide) (by decide) (by decide)

/-! Claim C6: a batch flip over two declared records, the first with zero
exact matches and the second with at least one, reports both outcomes in
declaration order, invokes the flip executor exactly once, and does not
stop early. -/

/-- C6: with an application declaring two records, where the locator
succeeds for both fqdns, yields zero exact matches for the first and a
first match `m` for the second, and the executor accepts the flip, the
batch ends `done` with exactly the skip line then the applied line, and
the executor was invoked exactly once, for the second record. -/
theorem C6_theorem (env : Env) (app site f1 t1 f2 t2 nv1 nv2 : String)
    (fl1 fl2 : List (String × String)) (rs1 rs2 : List Resolved)
    (m : Resolved) (ms : List Resolved) (upd : DNSRecordH)
    (hg1 : getField fl1 site = some nv1)
    (hg2 : getField fl2 site = some nv2)
    (hs1 : search_records env f1 = some rs1)
    (hm1 : exactMatches rs1 f1 = [])
    (hs2 : search_records env f2 = some rs2)
    (hm2 : exactMatches rs2 f2 = m :: ms)
    (hf : flip_record env f2 m.zone t2 (pySplitComma nv2) = .ok upd) :
    flipApp env [(some app, [⟨some (f1, t1), fl1⟩, ⟨some (f2, t2), fl2⟩])] app site =
      (.done [warnLine f1, appliedLine f2 t2 nv2],
       [⟨f2, m.zone, t2, pySplitComma nv2⟩],
       [(some app, [⟨some (f1, t1), fl1⟩, ⟨some (f2, t2), fl2⟩])]) := by
  simp [flipApp, modelContains, modelFind, dictGetItem, List.find?, flipLoop,
        hg1, hg2, hs1, hm1, hs2, hm2, hf]

/-- C6 witness: the theorem at a concrete provider that matches only
`b.com`, with `a.com` declared first. -/
theorem C6_witness :
    flipApp
      ⟨fun f => if f = "b.com" then some [⟨"b.com", "zoneb", "A", [["7.7.7.7"]]⟩] else some [],
       fun _ _ _ => .ok ⟨[["7.7.7.7"]]⟩, fun _ _ => false⟩
      [(some "app", [⟨some ("a.com", "A"), [("primary", "1.1.1.1"), ("secondary", "2.2.2.2")]⟩,
                     ⟨some ("b.com", "A"), [("primary", "3.3.3.3"), ("secondary", "4.4.4.4")]⟩])]
      "app" "primary" =
      (.done [warnLine "a.com", appliedLine "b.com" "A" "3.3.3.3"],
       [⟨"b.com", "zoneb", "A", ["3.3.3.3"]⟩],
       [(some "app", [⟨some ("a.com", "A"), [("primary", "1.1.1.1"), ("secondary", "2.2.2.2")]⟩,
                      ⟨some ("b.com", "A"), [("primary", "3.3.3.3"), ("secondary", "4.4.4.4")]⟩])]) :=
  C6_theorem _ "app" "primary" "a.com" "A" "b.com" "A" "1.1.1.1" "3.3.3.3"
    [("primary", "1.1.1.1"), ("secondary", "2.2.2.2")]
    [("primary", "3.3.3.3"), ("secondary", "4.4.4.4")]
    [] [⟨"b.com", "zoneb", "A", ["7.7.7.7"]⟩] ⟨"b.com", "zoneb", "A", ["7.7.7.7"]⟩ []
    ⟨[["3.3.3.3"]]⟩
    (by decide) (by decide) (by decide) (by decide) (by decide) (by decide) (by decide)

/-! Claim C3: the spec says a locator failure (`search_records` returning
its lookup-failed signal `None`) is reported as that record's outcome and
the batch continues.  In the flip_app branch the `None` is fed straight
into a list comprehension, which raises TypeError: the batch dies with no
outcome for the record and no further records processed.  The `-list -app`
branch checks `records is None` and continues, so the intent of the
explicit failure signal is visible in the same file. -/

/-- C3: evaluating the flip_app branch at the failing input — a provider
whose search raises on the first declared record — crashes with a
TypeError: no per-record outcome, no summary, and the second record is
never reached. -/
theorem C3_bug_eval :
    flipApp
      ⟨fun _ => none, fun _ _ _ => .ok ⟨[["7.7.7.7"]]⟩, fun _ _ => false⟩
      [(some "app", [⟨some ("a.com", "A"), [("primary", "1.1.1.1"), ("secondary", "2.2.2.2")]⟩,
                     ⟨some ("b.com", "A"), [("primary", "3.3.3.3"), ("secondary", "4.4.4.4")]⟩])]
      "app" "primary" =
      (.crashed .typeError, [],
       [(some "app", [⟨some ("a.com", "A"), [("primary", "1.1.1.1"), ("secondary", "2.2.2.2")]⟩,
                      ⟨some ("b.com", "A"), [("primary", "3.3.3.3"), ("secondary", "4.4.4.4")]⟩])]) := by
  decide

/-! Claim C2: the spec says the batch processes every declared record and
always ends with a full summary, an individual record failure never
failing the batch.  That holds for skipped records, but `flip_record` at
the heart of the loop is not guarded: a provider load/update failure
propagates, aborts the batch on the spot and no summary is printed. -/

/-- Per-record success condition for a batch flip: the record has its
fqdn tuple and site value, the locator succeeds, and either there is no
exact match (skip) or the executor accepts the flip of the first match. -/
def recordOk (env : Env) (site : String) (r : FlipRecordD) : Bool :=
  match r.fqdn with
  | none => false
  | some (f, t) =>
      match getField r.fields site with
      | none => false
      | some nv =>
          match search_records env f with
          | none => false
          | some rs =>
              match exactMatches rs f with
              | [] => true
              | m :: _ =>
                  match flip_record env f m.zone t (pySplitComma nv) with
                  | .ok _ => true
                  | .error _ => false

/-- Helper: when every record satisfies `recordOk`, the flip loop reaches
`done` and appends exactly one summary line per record. -/
theorem flipLoop_done_of_ok (env : Env) (site : String) :
    ∀ (records : List FlipRecordD) (acc : List String) (calls : List FlipCall),
      (∀ r ∈ records, recordOk env site r = true) →
      ∃ s c, flipLoop env site records acc calls = (.done s, c) ∧
        s.length = acc.length + records.length := by
  intro records
  induction records with
  | nil => exact fun acc calls _ => ⟨acc, calls, rfl, by simp⟩
  | cons r rest ih =>
      intro acc calls h
      have hr := h r (List.mem_cons_self r rest)
      have hrest := fun q hq => h q (List.mem_cons_of_mem r hq)
      rw [recordOk] at hr
      cases hfq : r.fqdn with
      | none => simp [hfq] at hr
      | some ft =>
          obtain ⟨f, t⟩ := ft
          simp only [hfq] at hr
          cases hg : getField r.fields site with
          | none => simp [hg] at hr
          | some nv =>
              simp only [hg] at hr
              cases hs : search_records env f with
              | none => simp [hs] at hr
              | some rs =>
                  simp only [hs] at hr
                  cases hm : exactMatches rs f with
                  | nil =>
                      obtain ⟨s, c, heq, hlen⟩ := ih (acc ++ [warnLine f]) calls hrest
                      refine ⟨s, c, ?_, ?_⟩
                      · simp only [flipLoop, hfq, hg, hs, hm]
                        exact heq
                      · rw [hlen]; simp; omega
                  | cons m ms =>
                      simp only [hm] at hr
                      cases hflip : flip_record env f m.zone t (pySplitComma nv) with
                      | error e => simp [hflip] at hr
                      | ok upd =>
                          obtain ⟨s, c, heq, hlen⟩ :=
                            ih (acc ++ [appliedLine f t nv])
                              (calls ++ [⟨f, m.zone, t, pySplitComma nv⟩]) hrest
                          refine ⟨s, c, ?_, ?_⟩
                          · simp only [flipLoop, hfq, hg, hs, hm, hflip]
                            exact heq
                          · rw [hlen]; simp; omega

/-- C2 amended: (1) when every declared record of a known application is
located successfully and either skipped or accepted by the executor, the
batch ends `done` with one summary line per declared record; (2) but the
moment `flip_record` raises on a record, the loop stops with that
exception: no summary is emitted and the remaining records are not
processed. -/
theorem C2_theorem (env : Env) (site app : String) (model : Model)
    (records : List FlipRecordD)
    (r : FlipRecordD) (rest : List FlipRecordD) (acc : List String) (calls : List FlipCall)
    (f t nv : String) (rs : List Resolved) (m : Resolved) (ms : List Resolved) (e : PyError) :
    ((modelFind model (some app) = some records) →
      (∀ q ∈ records, recordOk env site q = true) →
      ∃ s c, flipApp env model app site = (.done s, c, model) ∧ s.length = records.length) ∧
    (r.fqdn = some (f, t) → getField r.fields site = some nv →
      search_records env f = some rs → exactMatches rs f = m :: ms →
      flip_record env f m.zone t (pySplitComma nv) = .error e →
      flipLoop env site (r :: rest) acc calls =
        (.crashed e, calls ++ [⟨f, m.zone, t, pySplitComma nv⟩])) := by
  constructor
  · intro hp h
    obtain ⟨s, c, heq, hlen⟩ := flipLoop_done_of_ok env site records [] [] h
    refine ⟨s, c, ?_, by simpa using hlen⟩
    simp [flipApp, modelContains, dictGetItem, hp, heq]
  · intro h1 h2 h3 h4 h5
    simp only [flipLoop, h1, h2, h3, h4, h5]

/-- C2 counterexample: a batch over two declared records where the
provider rejects the first record's load ends `crashed` — no summary at
all, one executor call, and the second record never processed — refuting
the claim that the batch always ends with a full summary. -/
theorem C2_counterexample :
    flipApp
      ⟨fun _ => some [⟨"a.com", "zone1", "A", [["9.9.9.9"]]⟩],
       fun _ _ _ => .error .flipError, fun _ _ => false⟩
      [(some "app", [⟨some ("a.com", "A"), [("primary", "1.1.1.1"), ("secondary", "2.2.2.2")]⟩,
                     ⟨some ("b.com", "A"), [("primary", "3.3.3.3"), ("secondary", "4.4.4.4")]⟩])]
      "app" "primary" =
      (.crashed .flipError, [⟨"a.com", "zone1", "A", ["1.1.1.1"]⟩],
       [(some "app", [⟨some ("a.com", "A"), [("primary", "1.1.1.1"), ("secondary", "2.2.2.2")]⟩,
                      ⟨some ("b.com", "A"), [("primary", "3.3.3.3"), ("secondary", "4.4.4.4")]⟩])]) := by
  decide

/-- C2 witness: both halves of the amended theorem at concrete inputs — a
two-record batch that completes with a two-line summary, and a one-record
batch whose flip failure crashes the loop. -/
theorem C2_witness :
    (∃ s c, flipApp
        ⟨fun f => if f = "b.com" then some [⟨"b.com", "zoneb", "A", [["7.7.7.7"]]⟩] else some [],
         fun _ _ _ => .ok ⟨[["7.7.7.7"]]⟩, fun _ _ => false⟩
        [(some "app",
          [⟨some ("a.com", "A"), [("primary", "1.1.1.1"), ("secondary", "2.2.2.2")]⟩,
           ⟨some ("b.com", "A"), [("primary", "3.3.3.3"), ("secondary", "4.4.4.4")]⟩])]
        "app" "primary" =
        (.done s, c,
         [(some "app",
           [⟨some ("a.com", "A"), [("primary", "1.1.1.1"), ("secondary", "2.2.2.2")]⟩,
            ⟨some ("b.com", "A"), [("primary", "3.3.3.3"), ("secondary", "4.4.4.4")]⟩])]) ∧
        s.length = 2) ∧
    flipLoop
      ⟨fun _ => some [⟨"a.com", "zone1", "A", [["9.9.9.9"]]⟩],
       fun _ _ _ => .error .flipError, fun _ _ => false⟩ "primary"
      [⟨some ("a.com", "A"), [("primary", "1.1.1.1"), ("secondary", "2.2.2.2")]⟩] [] [] =
      (.crashed .flipError, [⟨"a.com", "zone1", "A", ["1.1.1.1"]⟩]) :=
  ⟨(C2_theorem _ "primary" "app" _
      [⟨some ("a.com", "A"), [("primary", "1.1.1.1"), ("secondary", "2.2.2.2")]⟩,
       ⟨some ("b.com", "A"), [("primary", "3.3.3.3"), ("secondary", "4.4.4.4")]⟩]
      ⟨none, []⟩ [] [] [] "" "" "" [] ⟨"", "", "", []⟩ [] .flipError).1
      (by decide) (by decide),
   (C2_theorem _ "primary" "app" []
      []
      ⟨some ("a.com", "A"), [("primary", "1.1.1.1"), ("secondary", "2.2.2.2")]⟩ [] [] []
      "a.com" "A" "1.1.1.1" [⟨"a.com", "zone1", "A", ["9.9.9.9"]⟩]
      ⟨"a.com", "zone1", "A", ["9.9.9.9"]⟩ [] .flipError).2
      (by decide) (by decide) (by decide) (by decide) (by decide)⟩

/-! Claim C7: the check action reports only records whose domain equals
the requested fqdn exactly, although the locator underneath admits any
`A`/`CNAME` record whose domain equals the fqdn or ends with
`"." + fqdn`. -/

/-- Soundness of the locator filter: every record produced by
`collectRecords` has type `A` or `CNAME` and a domain equal to the fqdn or
a strict subdomain of it. -/
theorem collectRecords_sound (fqdn : String) :
    ∀ (raw : List RawResult) (rs : List Resolved), collectRecords fqdn raw = some rs →
      ∀ r ∈ rs, (r.record_type = "A" ∨ r.record_type = "CNAME") ∧
        (r.domain = fqdn ∨ pyEndsWith r.domain ("." ++ fqdn) = true) := by
  intro raw
  induction raw with
  | nil =>
      intro rs h r hr
      simp [collectRecords] at h
      subst h
      simp at hr
  | cons q rest ih =>
      intro rs h r hr
      rw [collectRecords] at h
      by_cases h1 : q.type = "A" ∨ q.type = "CNAME"
      · rw [if_pos h1] at h
        by_cases h2 : q.domain = fqdn ∨ pyEndsWith q.domain ("." ++ fqdn) = true
        · rw [if_pos h2] at h
          cases hm : q.answers.mapM List.head? with
          | none => rw [hm] at h; simp at h
          | some vals =>
              rw [hm] at h
              cases hc : collectRecords fqdn rest with
              | none => rw [hc] at h; simp at h
              | some rs2 =>
                  rw [hc] at h
                  simp only [Option.map_some'] at h
                  injection h with h
                  subst h
                  rcases List.mem_cons.mp hr with hhead | htail
                  · subst hhead
                    exact ⟨h1, h2⟩
                  · exact ih rs2 hc r htail
        · rw [if_neg h2] at h
          exact ih rs h r hr
      · rw [if_neg h1] at h
        exact ih rs h r hr

/-- Completeness of the locator filter: every provider result of type
`A`/`CNAME` whose domain equals the fqdn or is a strict subdomain shows up
among the collected records (given the collection succeeded). -/
theorem collectRecords_complete (fqdn : String) :
    ∀ (raw : List RawResult) (rs : List Resolved), collectRecords fqdn raw = some rs →
      ∀ q ∈ raw, (q.type = "A" ∨ q.type = "CNAME") →
        (q.domain = fqdn ∨ pyEndsWith q.domain ("." ++ fqdn) = true) →
        ∃ r, r ∈ rs ∧ r.domain = q.domain ∧ r.zone = q.zone ∧ r.record_type = q.type := by
  intro raw
  induction raw with
  | nil => intro rs h q hq; simp at hq
  | cons q0 rest ih =>
      intro rs h q hq hty hdom
      rw [collectRecords] at h
      rcases List.mem_cons.mp hq with hhead | htail
      · subst hhead
        rw [if_pos hty, if_pos hdom] at h
        cases hm : q.answers.mapM List.head? with
        | none => rw [hm] at h; simp at h
        | some vals =>
            rw [hm] at h
            cases hc : collectRecords fqdn rest with
            | none => rw [hc] at h; simp at h
            | some rs2 =>
                rw [hc] at h
                simp only [Option.map_some'] at h
                injection h with h
                subst h
                exact ⟨⟨q.domain, q.zone, q.type, vals⟩, List.mem_cons_self _ _, rfl, rfl, rfl⟩
      · by_cases h1 : q0.type = "A" ∨ q0.type = "CNAME"
        · rw [if_pos h1] at h
          by_cases h2 : q0.domain = fqdn ∨ pyEndsWith q0.domain ("." ++ fqdn) = true
          · rw [if_pos h2] at h
            cases hm : q0.answers.mapM List.head? with
            | none => rw [hm] at h; simp at h
            | some vals =>
                rw [hm] at h
                cases hc : collectRecords fqdn rest with
                | none => rw [hc] at h; simp at h
                | some rs2 =>
                    rw [hc] at h
                    simp only [Option.map_some'] at h
                    injection h with h
                    subst h
                    obtain ⟨r, hmem, hrest⟩ := ih rs2 hc q htail hty hdom
                    exact ⟨r, List.mem_cons_of_mem _ hmem, hrest⟩
          · rw [if_neg h2] at h
            exact ih rs h q htail hty hdom
        · rw [if_neg h1] at h
          exact ih rs h q htail hty hdom

/-- C7: when the locator succeeds with records `rs` and the check action
reports `l`, then (1) every reported record's domain is exactly the fqdn,
(2) locator records with a different domain — strict subdomains — are
excluded from the report, (3) every locator record is an `A`/`CNAME` with
domain equal to the fqdn or ending in `"." + fqdn`, and (4) every
`A`/`CNAME` provider result with such a domain is included by the
locator. -/
theorem C7_theorem (env : Env) (fqdn : String) (rs l : List Resolved)
    (hs : search_records env fqdn = some rs)
    (hc : check_action env fqdn = .ok l) :
    (∀ r ∈ l, r.domain = fqdn) ∧
    (∀ r ∈ rs, r.domain ≠ fqdn → r ∉ l) ∧
    (∀ r ∈ rs, (r.record_type = "A" ∨ r.record_type = "CNAME") ∧
      (r.domain = fqdn ∨ pyEndsWith r.domain ("." ++ fqdn) = true)) ∧
    (∀ raw, env.searchZone fqdn = some raw →
      ∀ q ∈ raw, (q.type = "A" ∨ q.type = "CNAME") →
        (q.domain = fqdn ∨ pyEndsWith q.domain ("." ++ fqdn) = true) →
        ∃ r, r ∈ rs ∧ r.domain = q.domain ∧ r.zone = q.zone ∧ r.record_type = q.type) := by
  have hl : l = exactMatches rs fqdn := by
    rw [check_action, hs] at hc
    injection hc with hc
    exact hc.symm
  subst hl
  have hraw : ∃ raw0, env.searchZone fqdn = some raw0 ∧ collectRecords fqdn raw0 = some rs := by
    rw [search_records] at hs
    cases hz : env.searchZone fqdn with
    | none => rw [hz] at hs; exact absurd hs (by simp)
    | some raw0 => rw [hz] at hs; exact ⟨raw0, rfl, hs⟩
  obtain ⟨raw0, hz, hcoll⟩ := hraw
  refine ⟨?_, ?_, ?_, ?_⟩
  · intro r hr
    have := List.mem_filter.mp hr
    simpa using this.2
  · intro r _ hne hmem
    have := List.mem_filter.mp hmem
    exact hne (by simpa using this.2)
  · exact collectRecords_sound fqdn raw0 rs hcoll
  · intro raw hraw2 q hq hty hdom
    rw [hz] at hraw2
    injection hraw2 with hraw2
    subst hraw2
    exact collectRecords_complete fqdn raw0 rs hcoll q hq hty hdom

/-- C7 witness: the theorem at the provider of the spec example — an `A`
record for `app.example.com` and a `CNAME` for its subdomain
`www.app.example.com`; the check report contains only the exact match. -/
theorem C7_witness :
    (∀ r ∈ [Resolved.mk "app.example.com" "example.com" "A" ["1.2.3.4"]],
        r.domain = "app.example.com") ∧
    (∀ r ∈ [Resolved.mk "app.example.com" "example.com" "A" ["1.2.3.4"],
            Resolved.mk "www.app.example.com" "example.com" "CNAME" ["cdn.example.net"]],
        r.domain ≠ "app.example.com" →
          r ∉ [Resolved.mk "app.example.com" "example.com" "A" ["1.2.3.4"]]) ∧
    (∀ r ∈ [Resolved.mk "app.example.com" "example.com" "A" ["1.2.3.4"],
            Resolved.mk "www.app.example.com" "example.com" "CNAME" ["cdn.example.net"]],
        (r.record_type = "A" ∨ r.record_type = "CNAME") ∧
        (r.domain = "app.example.com" ∨
          pyEndsWith r.domain ("." ++ "app.example.com") = true)) ∧
    (∀ raw,
        (Env.mk
          (fun _ => some [⟨"app.example.com", "example.com", "A", [["1.2.3.4"]]⟩,
                          ⟨"www.app.example.com", "example.com", "CNAME", [["cdn.example.net"]]⟩])
          (fun _ _ _ => .error .flipError) (fun _ _ => false)).searchZone "app.example.com" =
            some raw →
        ∀ q ∈ raw, (q.type = "A" ∨ q.type = "CNAME") →
          (q.domain = "app.example.com" ∨
            pyEndsWith q.domain ("." ++ "app.example.com") = true) →
          ∃ r, r ∈ [Resolved.mk "app.example.com" "example.com" "A" ["1.2.3.4"],
                    Resolved.mk "www.app.example.com" "example.com" "CNAME" ["cdn.example.net"]] ∧
            r.domain = q.domain ∧ r.zone = q.zone ∧ r.record_type = q.type) :=
  C7_theorem
    (Env.mk
      (fun _ => some [⟨"app.example.com", "example.com", "A", [["1.2.3.4"]]⟩,
                      ⟨"www.app.example.com", "example.com", "CNAME", [["cdn.example.net"]]⟩])
      (fun _ _ _ => .error .flipError) (fun _ _ => false))
    "app.example.com"
    [Resolved.mk "app.example.com" "example.com" "A" ["1.2.3.4"],
     Resolved.mk "www.app.example.com" "example.com" "CNAME" ["cdn.example.net"]]
    [Resolved.mk "app.example.com" "example.com" "A" ["1.2.3.4"]]
    (by decide) (by decide)

/-! Claim C9: for a comma-separated value string selected for a flip, the
executor receives the comma-split list (the orchestrator passes
`new_value.split(",")`, embedded as `pySplitComma` in `flipLoop`) and
builds an answer set with exactly one entry per element, in order,
replacing all prior answers. -/

/-- C9: flipping with the comma-split of a value string constructs, on a
record the provider loads and accepts, exactly the answer set with one
singleton entry per split element in order — independent of the prior
answer set `prior`, which is discarded. -/
theorem C9_theorem (env : Env) (f z t s : String) (prior : DNSRecordH)
    (hload : env.loadRecord f t z = .ok prior)
    (hupd : env.updateRejects prior ((pySplitComma s).map fun v => [v]) = false) :
    flip_record env f z t (pySplitComma s) =
      .ok { answers := (pySplitComma s).map fun v => [v] } ∧
    ((pySplitComma s).map fun v => [v]).length = (pySplitComma s).length ∧
    ∀ i : Nat, ((pySplitComma s).map fun v => [v])[i]? = ((pySplitComma s)[i]?).map fun v => [v] := by
  refine ⟨?_, by simp, fun i => by simp⟩
  simp [flip_record, hload, hupd, recordUpdate]

/-- C9 witness: the theorem at the value string `1.2.3.4,5.6.7.8` over a
record with three prior answers: the result is exactly the two entries
`[["1.2.3.4"], ["5.6.7.8"]]` in order. -/
theorem C9_witness :
    flip_record
      ⟨fun _ => some [], fun _ _ _ => .ok ⟨[["9.9.9.9"], ["8.8.8.8"], ["7.7.7.7"]]⟩,
       fun _ _ => false⟩
      "a.com" "zone1" "A" (pySplitComma "1.2.3.4,5.6.7.8") =
      .ok { answers := [["1.2.3.4"], ["5.6.7.8"]] } ∧
    pySplitComma "1.2.3.4,5.6.7.8" = ["1.2.3.4", "5.6.7.8"] :=
  ⟨(C9_theorem
      ⟨fun _ => some [], fun _ _ _ => .ok ⟨[["9.9.9.9"], ["8.8.8.8"], ["7.7.7.7"]]⟩,
       fun _ _ => false⟩
      "a.com" "zone1" "A" "1.2.3.4,5.6.7.8" ⟨[["9.9.9.9"], ["8.8.8.8"], ["7.7.7.7"]]⟩
      (by decide) (by decide)).1,
   by decide⟩

/-! Claim C10: looking up an absent application name — for a batch flip or
for listing detail — leaves the ConfigModel unchanged, in particular it
does not insert an empty defaultdict entry: the flip branch guards the
defaultdict subscript behind `app_name in flip_config`, and the list
branch reads via `.get`. -/

/-- C10: for any model without the requested application, the flip_app
branch returns not-found with the model untouched, and the list-detail
branch returns the model untouched. -/
theorem C10_theorem (env : Env) (m : Model) (app_name site : String)
    (h : modelContains m (some app_name) = false) :
    flipApp env m app_name site = (.notFound, [], m) ∧
    (listApplicationDetail env m app_name).2 = m := by
  constructor
  · simp [flipApp, h]
  · rfl

/-- C10 witness: the theorem at a model holding a different application
only. -/
theorem C10_witness :
    flipApp
      ⟨fun _ => none, fun _ _ _ => .error .flipError, fun _ _ => false⟩
      [(some "other", [⟨some ("a.com", "A"), [("primary", "p"), ("secondary", "s")]⟩])]
      "app" "primary" =
      (.notFound, [],
       [(some "other", [⟨some ("a.com", "A"), [("primary", "p"), ("secondary", "s")]⟩])]) ∧
    (listApplicationDetail
      ⟨fun _ => none, fun _ _ _ => .error .flipError, fun _ _ => false⟩
      [(some "other", [⟨some ("a.com", "A"), [("primary", "p"), ("secondary", "s")]⟩])]
      "app").2 =
      [(some "other", [⟨some ("a.com", "A"), [("primary", "p"), ("secondary", "s")]⟩])] :=
  C10_theorem
    ⟨fun _ => none, fun _ _ _ => .error .flipError, fun _ _ => false⟩
    [(some "other", [⟨some ("a.com", "A"), [("primary", "p"), ("secondary", "s")]⟩])]
    "app" "primary" (by decide)

end Flipper
